import Mathlib

/-!
Verification development for the column-profiling core of `analyze_excel.py`.

The embedded code is `analyze_column` (type counting, categorical test,
example assembly, empty-slot substitution) and `generate_fake_data`
(name-token dispatch and the content-based dtype branches).  Raw cell
values are a tagged union; pandas dtype inference and the Faker
generators are modelled explicitly below, with comments citing the
source lines they embed.
-/

/-- Raw cell values handed to `analyze_column` (src/analyze_excel.py:82).
Numeric cells are modelled as integers (the claims need no fractional
values); temporal cells carry a year-month-day triple; `missing` is
pandas NaN/None/NaT (`pd.isna`). -/
inductive Value where
  | missing
  | num (n : Int)
  | temporal (y m d : Nat)
  | text (s : String)
deriving DecidableEq, Repr

def Value.isMissing : Value → Bool
  | .missing => true
  | _ => false

def Value.isNum : Value → Bool
  | .num _ => true
  | _ => false

def Value.isTemporal : Value → Bool
  | .temporal _ _ _ => true
  | _ => false

/-- Decimal digits of a natural number, fuel-structured so that the
kernel can evaluate it (`Nat.repr` semantics: most significant first). -/
def natNumeralAux : Nat → Nat → List Char
  | 0, _ => []
  | fuel + 1, n =>
    if n < 10 then [Nat.digitChar n]
    else natNumeralAux fuel (n / 10) ++ [Nat.digitChar (n % 10)]

def natNumeral (n : Nat) : List Char := natNumeralAux (n + 1) n

/-- Characters of Python `str()` of an integer: optional leading minus
sign, then decimal digits. -/
def intChars (n : Int) : List Char :=
  (if n < 0 then ['-'] else []) ++ natNumeral n.natAbs

/-- Python `str(val)` (src/analyze_excel.py:92 and the
`astype(str)` on line 51).  `str(nan)` is "nan"; that case is
unreachable in the embedded code (missing values are either caught by
`pd.isna` first or removed by `dropna`).  Temporal display is
"y-m-d" — only the presence of non-whitespace characters matters to the
embedded claims. -/
def pyStr : Value → String
  | .missing => "nan"
  | .num n => ⟨intChars n⟩
  | .temporal y m d =>
      ⟨natNumeral y ++ '-' :: natNumeral m ++ '-' :: natNumeral d⟩
  | .text s => s

/-- Python `str(val).strip() == ""`: true iff every character is
whitespace (src/analyze_excel.py:92). -/
def pyBlank (v : Value) : Bool := (pyStr v).toList.all Char.isWhitespace

/-- The four Counter keys of the type census: "Tom", "Tal", "Datum",
"Text" (src/analyze_excel.py:93-99). -/
inductive Kind where
  | tom
  | tal
  | datum
  | txt
deriving DecidableEq, Repr

/-- Per-row kind test, in the source's order: `pd.isna(val) or
str(val).strip()==""` first, then `isinstance` number, then datetime,
else text (src/analyze_excel.py:91-99). -/
def valKind (v : Value) : Kind :=
  if v.isMissing || pyBlank v then .tom
  else
    match v with
    | .num _ => .tal
    | .temporal _ _ _ => .datum
    | .text _ => .txt
    | .missing => .tom

/-- Lowercasing as Python `str.lower()` does for the Swedish letters that
occur in the token vocabulary, ASCII otherwise
(src/analyze_excel.py:52). -/
def charLower (c : Char) : Char :=
  if c = 'Å' then 'å'
  else if c = 'Ä' then 'ä'
  else if c = 'Ö' then 'ö'
  else c.toLower

def pyLower (s : String) : String := ⟨s.toList.map charLower⟩

/-- List-of-characters test that `pat` is an initial segment. -/
def startsWithL : List Char → List Char → Bool
  | [], _ => true
  | _ :: _, [] => false
  | a :: as, b :: bs => a == b && startsWithL as bs

/-- Contiguous-substring occurrence, Python's `pat in s`. -/
def hasSubL (pat : List Char) : List Char → Bool
  | [] => startsWithL pat []
  | c :: cs => startsWithL pat (c :: cs) || hasSubL pat cs

def hasSub (hay pat : String) : Bool := hasSubL pat.toList hay.toList

/-- Pandas dtypes relevant to the embedded code. -/
inductive Pdtype where
  | tyNum
  | tyDt
  | tyObj
deriving DecidableEq, Repr

/-- Python objects held by an object-dtype series (used to model
`infer_objects`). -/
inductive PyObj where
  | pstr (s : String)
  | pnum (n : Int)
  | pdt (y m d : Nat)
deriving DecidableEq, Repr

def PyObj.isPnum : PyObj → Bool
  | .pnum _ => true
  | _ => false

def PyObj.isPdt : PyObj → Bool
  | .pdt _ _ _ => true
  | _ => false

/-- Pandas `Series.infer_objects().dtype` on an object-dtype series:
soft conversion succeeds only when every element already is a numeric
(resp. datetime) Python object; strings are never parsed
(src/analyze_excel.py:73,75). -/
def inferObjectsDtype (l : List PyObj) : Pdtype :=
  if l.length > 0 && l.all PyObj.isPnum then .tyNum
  else if l.length > 0 && l.all PyObj.isPdt then .tyDt
  else .tyObj

def is_numeric_dtype (t : Pdtype) : Bool := t == .tyNum

def is_datetime_dtype (t : Pdtype) : Bool := t == .tyDt

def is_string_dtype (t : Pdtype) : Bool := t == .tyObj

/-- Dtype of the pandas series read from a sheet column, inferred from
the sampled values as `pd.read_excel` does per column: all non-missing
values numeric (including the all-missing column, which reads as
float64 NaN) gives a numeric dtype, all non-missing values temporal
gives datetime64, anything else is object.  `dropna` preserves the
dtype, so this also models `non_empty_series.dtype`
(src/analyze_excel.py:106,113). -/
def seriesDtype (l : List Value) : Pdtype :=
  let nm := l.filter (fun v => !v.isMissing)
  if nm.all Value.isNum then .tyNum
  else if nm.all Value.isTemporal then .tyDt
  else .tyObj

/-- Which fake-data generator `generate_fake_data` invokes.  `uniform`
is the `np.random.uniform(series.min(), series.max())` branch on
line 74; `number6` is `fake.random_number(digits=6)`; the rest are the
Faker calls in source order. -/
inductive Fake where
  | fname
  | company
  | email
  | phone
  | address
  | ssn
  | number6
  | date
  | uniform
  | word
deriving DecidableEq, Repr

/-- `generate_fake_data(series, col_name)` (src/analyze_excel.py:49-79),
returning the generator it dispatches to.  Line 51 does
`series.dropna().astype(str)`, so the content-based dtype tests on
lines 73 and 75 see a series of Python strings. -/
def generate_fake_data (series : List Value) (col_name : String) : Fake :=
  let s : List String := (series.filter (fun v => !v.isMissing)).map pyStr
  let n := pyLower col_name
  if hasSub n "namn" || hasSub n "kund" then .fname
  else if hasSub n "företag" then .company
  else if hasSub n "epost" || hasSub n "email" then .email
  else if hasSub n "telefon" || hasSub n "mobil" then .phone
  else if hasSub n "adress" then .address
  else if hasSub n "personnummer" then .ssn
  else if hasSub n "nummer" || hasSub n "id" then .number6
  else if hasSub n "datum" then .date
  else if is_numeric_dtype (inferObjectsDtype (s.map PyObj.pstr)) then .uniform
  else if is_datetime_dtype (inferObjectsDtype (s.map PyObj.pstr)) then .date
  else .word

-- --- analyze_column ------------------------------------------------------

def SAMPLE_SIZE : Nat := 50
def CATEGORICAL_THRESHOLD : Nat := 15
def EXAMPLE_COUNT : Nat := 5

/-- One entry of the example list: a real sampled value (categorical
branch), a fake-generator output (variable branch), or the literal
"(tom)" marker. -/
inductive Entry where
  | real (v : Value)
  | fake (f : Fake)
  | tom
deriving DecidableEq, Repr

/-- The first component returned by `analyze_column`: either the
"Tom kolumn" sentinel or the Counter census rendered on line 101. -/
inductive TypeSummary where
  | tomKolumn
  | counts (cs : List (Kind × Nat))
deriving DecidableEq, Repr

/-- The third component returned by `analyze_column`: "Ingen data",
"Kategorisk (n unika värden)", or "Varierande/Känslig data". -/
inductive Note where
  | ingenData
  | kategorisk (n : Nat)
  | varierande
deriving DecidableEq, Repr

structure ColResult where
  summary : TypeSummary
  examples : List Entry
  note : Note
deriving DecidableEq, Repr

/-- First-occurrence deduplication with an accumulator of already-seen
elements (structural, so concrete instances evaluate in the kernel). -/
def dedupFirstAux {α : Type} [DecidableEq α] : List α → List α → List α
  | [], _ => []
  | a :: as, seen =>
    if a ∈ seen then dedupFirstAux as seen
    else a :: dedupFirstAux as (a :: seen)

/-- `pandas.Series.unique()`: distinct elements in first-occurrence
order. -/
def dedupFirst {α : Type} [DecidableEq α] (l : List α) : List α :=
  dedupFirstAux l []

/-- `series.dropna().unique()` (src/analyze_excel.py:106-107): only
missing values are dropped — blank-but-present strings stay. -/
def uniqueVals (l : List Value) : List Value :=
  dedupFirst (l.filter (fun v => !v.isMissing))

def countKind (l : List Value) (k : Kind) : Nat := (l.map valKind).count k

/-- `type_counts["Tom"]` (src/analyze_excel.py:126). -/
def emptyCount (l : List Value) : Nat := countKind l .tom

/-- The Counter census in key-insertion order; only kinds that occur
appear (src/analyze_excel.py:90-99). -/
def typeCounts (l : List Value) : List (Kind × Nat) :=
  (dedupFirst (l.map valKind)).map (fun k => (k, countKind l k))

/-- `int(type_counts.get("Tom", 0) / total_rows * EXAMPLE_COUNT)`
(src/analyze_excel.py:126): exact-rational semantics of the float
expression; equals the floor of the empty proportion times
`EXAMPLE_COUNT` (proved below). -/
def kOf (l : List Value) : Nat := emptyCount l * EXAMPLE_COUNT / l.length

/-- The categorical test (src/analyze_excel.py:111-113):
`len(unique) <= 15 and len(unique) > 0 and
pd.api.types.is_string_dtype(non_empty_series.dtype)`. -/
def is_categorical (l : List Value) : Bool :=
  decide ((uniqueVals l).length ≤ CATEGORICAL_THRESHOLD) &&
    decide (0 < (uniqueVals l).length) &&
    is_string_dtype (seriesDtype l)

/-- The example list before empty-slot substitution
(src/analyze_excel.py:115-123): the first `EXAMPLE_COUNT` unique values
for categorical columns, else `EXAMPLE_COUNT` calls of
`generate_fake_data` (which generator runs depends only on the column
name and the series, so all five calls dispatch identically). -/
def preExamples (l : List Value) (name : String) : List Entry :=
  if is_categorical l then
    ((uniqueVals l).take EXAMPLE_COUNT).map Entry.real
  else
    List.replicate EXAMPLE_COUNT
      (Entry.fake (generate_fake_data (l.filter (fun v => !v.isMissing)) name))

/-- `analyze_column(series, col_name)` (src/analyze_excel.py:82-131). -/
def analyze_column (l : List Value) (name : String) : ColResult :=
  if l.length = 0 then ⟨.tomKolumn, [], .ingenData⟩
  else
    let note := if is_categorical l then Note.kategorisk (uniqueVals l).length
                else Note.varierande
    let k := kOf l
    ⟨.counts (typeCounts l),
     (preExamples l name).drop k ++ List.replicate k Entry.tom,
     note⟩

-- --- Rendering through the external fake-data engine ---------------------

/-- The Faker engine's generators, one output stream each (the slot
index stands for the engine's internal random state advancing between
the five calls in the loop on src/analyze_excel.py:122-123). -/
structure FakerGen where
  fname : Nat → String
  company : Nat → String
  email : Nat → String
  phone : Nat → String
  address : Nat → String
  ssn : Nat → String
  number6 : Nat → String
  date : Nat → String
  word : Nat → String

/-- String produced by one generator invocation.  The `uniform` branch
would raise in the source (its operands are strings after
`astype(str)`); it is provably never dispatched to
(`generate_fake_data_ne_uniform` below), so its rendering here is
immaterial. -/
def renderFake (fk : FakerGen) (i : Nat) : Fake → String
  | .fname => fk.fname i
  | .company => fk.company i
  | .email => fk.email i
  | .phone => fk.phone i
  | .address => fk.address i
  | .ssn => fk.ssn i
  | .number6 => fk.number6 i
  | .date => fk.date i
  | .uniform => fk.word i
  | .word => fk.word i

/-- Display string of one example slot, as `repr(examples)` shows it. -/
def renderEntry (fk : FakerGen) (i : Nat) : Entry → String
  | .real v => pyStr v
  | .fake f => renderFake fk i f
  | .tom => "(tom)"

/-- The example list rendered to strings, slot by slot. -/
def renderedExamples (fk : FakerGen) (es : List Entry) : List String :=
  ((List.range es.length).zip es).map (fun p => renderEntry fk p.1 p.2)

/-- Modelled from the spec: the national-identity-number display shape
of the source locale (Swedish personnummer as Faker sv_SE emits it):
six digits, a hyphen, four digits. -/
def pnrShaped (s : String) : Bool :=
  match s.toList with
  | [a, b, c, d, e, f, g, h, i, j, k] =>
      [a, b, c, d, e, f].all Char.isDigit && g == '-' &&
        [h, i, j, k].all Char.isDigit
  | _ => false

/-- The spec's "distinct non-empty values" (spec sections 4.1-4.2):
distinct values whose kind is not Empty, in first-occurrence order.
Written from the spec's words, to compare against the source's
`uniqueVals`, which drops only missing values. -/
def specDistinctNonEmpty (l : List Value) : List Value :=
  dedupFirst (l.filter (fun v => !(valKind v == Kind.tom)))

-- --- Concrete samples used by the claim theorems --------------------------

/-- Sixteen-value sample: one blank-but-present string plus fifteen
distinct words. -/
def c4SampleB : List Value :=
  [Value.text "", Value.text "a", Value.text "b", Value.text "c",
   Value.text "d", Value.text "e", Value.text "f", Value.text "g",
   Value.text "h", Value.text "i", Value.text "j", Value.text "k",
   Value.text "l", Value.text "m", Value.text "n", Value.text "o"]

/-- The spec's own categorical test sample. -/
def stockholmSample : List Value :=
  [Value.text "Stockholm", Value.text "Malmö", Value.text "Stockholm",
   Value.text "Göteborg"]

/-- Six-value categorical sample holding one blank-but-present string. -/
def c7SampleBlank : List Value :=
  [Value.text "", Value.text "a", Value.text "b", Value.text "c",
   Value.text "d", Value.text "e"]

/-- Six-value categorical sample with a whitespace-only string that
survives into the example list. -/
def c10Sample : List Value :=
  [Value.text " ", Value.text "a", Value.text "b", Value.text "c",
   Value.text "d", Value.text "e"]

/-- Fifty-row sample, forty equal numbers and ten missing cells. -/
def c3Sample : List Value :=
  List.replicate 40 (Value.num 1) ++ List.replicate 10 Value.missing

/-- Ten distinct numeric-looking strings, the literal reading of C1's
Personnummer sample. -/
def c1SampleText : List Value :=
  [Value.text "10", Value.text "11", Value.text "12", Value.text "13",
   Value.text "14", Value.text "15", Value.text "16", Value.text "17",
   Value.text "18", Value.text "19"]

/-- A concrete fake-data engine whose ssn stream emits one fixed
well-shaped personnummer. -/
def demoFaker : FakerGen :=
  ⟨fun _ => "Anna", fun _ => "AB", fun _ => "a@b.se", fun _ => "070",
   fun _ => "Gatan 1", fun _ => "850101-1234", fun _ => "123456",
   fun _ => "2020-01-01", fun _ => "ord"⟩

/-- Numeric Ålder sample inside [18, 65], the spec's C2 scenario. -/
def alderSample : List Value := [Value.num 18, Value.num 40, Value.num 65]

-- --- Helper lemmas -------------------------------------------------------

theorem mem_dedupFirstAux {α : Type} [DecidableEq α] (a : α) :
    ∀ (l seen : List α), a ∈ dedupFirstAux l seen ↔ a ∈ l ∧ a ∉ seen := by
  intro l
  induction l with
  | nil => intro seen; simp [dedupFirstAux]
  | cons b bs ih =>
    intro seen
    by_cases hb : b ∈ seen
    · rw [show dedupFirstAux (b :: bs) seen = dedupFirstAux bs seen by
        simp [dedupFirstAux, hb]]
      rw [ih]
      simp only [List.mem_cons]
      constructor
      · rintro ⟨h1, h2⟩
        exact ⟨Or.inr h1, h2⟩
      · rintro ⟨h1 | h1, h2⟩
        · exact absurd (h1 ▸ hb) h2
        · exact ⟨h1, h2⟩
    · rw [show dedupFirstAux (b :: bs) seen = b :: dedupFirstAux bs (b :: seen) by
        simp [dedupFirstAux, hb]]
      simp only [List.mem_cons, ih]
      constructor
      · rintro (rfl | ⟨h1, h2⟩)
        · exact ⟨Or.inl rfl, hb⟩
        · exact ⟨Or.inr h1, fun hc => h2 (Or.inr hc)⟩
      · rintro ⟨rfl | h1, h2⟩
        · exact Or.inl rfl
        · by_cases hab : a = b
          · exact Or.inl hab
          · exact Or.inr ⟨h1, fun hc => hc.elim hab h2⟩

theorem nodup_dedupFirstAux {α : Type} [DecidableEq α] :
    ∀ (l seen : List α), (dedupFirstAux l seen).Nodup := by
  intro l
  induction l with
  | nil => intro seen; simp [dedupFirstAux]
  | cons b bs ih =>
    intro seen
    by_cases hb : b ∈ seen
    · rw [show dedupFirstAux (b :: bs) seen = dedupFirstAux bs seen by
        simp [dedupFirstAux, hb]]
      exact ih seen
    · rw [show dedupFirstAux (b :: bs) seen = b :: dedupFirstAux bs (b :: seen) by
        simp [dedupFirstAux, hb]]
      refine List.nodup_cons.mpr ⟨fun hmem => ?_, ih _⟩
      rw [mem_dedupFirstAux] at hmem
      exact hmem.2 (List.mem_cons_self b seen)

theorem mem_dedupFirst {α : Type} [DecidableEq α] (a : α) (l : List α) :
    a ∈ dedupFirst l ↔ a ∈ l := by
  rw [dedupFirst, mem_dedupFirstAux]
  simp

theorem nodup_dedupFirst {α : Type} [DecidableEq α] (l : List α) :
    (dedupFirst l).Nodup :=
  nodup_dedupFirstAux l []

theorem dedupFirst_perm_dedup {α : Type} [DecidableEq α] (l : List α) :
    List.Perm (dedupFirst l) l.dedup := by
  refine List.perm_of_nodup_nodup_toFinset_eq (nodup_dedupFirst l)
    l.nodup_dedup ?_
  ext x
  simp [List.mem_toFinset, mem_dedupFirst, List.mem_dedup]

theorem sum_counts_dedupFirst {α : Type} [DecidableEq α] (l : List α) :
    ((dedupFirst l).map fun x => l.count x).sum = l.length := by
  rw [List.Perm.sum_eq ((dedupFirst_perm_dedup l).map _)]
  exact List.sum_map_count_dedup_eq_length l

theorem emptyCount_le (l : List Value) : emptyCount l ≤ l.length := by
  calc emptyCount l ≤ (l.map valKind).length := List.count_le_length _ _
    _ = l.length := List.length_map _ _

theorem kOf_le (l : List Value) : kOf l ≤ EXAMPLE_COUNT := by
  rcases Nat.eq_zero_or_pos l.length with h | h
  · simp [kOf, h]
  · calc kOf l ≤ l.length * EXAMPLE_COUNT / l.length :=
        Nat.div_le_div_right (Nat.mul_le_mul_right _ (emptyCount_le l))
    _ = EXAMPLE_COUNT := by
        rw [Nat.mul_comm]
        exact Nat.mul_div_cancel _ h

theorem kOf_eq_floor (l : List Value) :
    kOf l =
      Nat.floor ((emptyCount l : ℚ) / (l.length : ℚ) * (EXAMPLE_COUNT : ℚ)) := by
  rw [div_mul_eq_mul_div,
    show ((emptyCount l : ℚ) * (EXAMPLE_COUNT : ℚ))
      = ((emptyCount l * EXAMPLE_COUNT : ℕ) : ℚ) by push_cast; ring,
    Nat.floor_div_nat, Nat.floor_natCast]
  rfl

theorem preExamples_length_le (l : List Value) (n : String) :
    (preExamples l n).length ≤ EXAMPLE_COUNT := by
  unfold preExamples
  split
  · simp [List.length_take]
  · simp

theorem preExamples_length_of_var (l : List Value) (n : String)
    (h : is_categorical l = false) :
    (preExamples l n).length = EXAMPLE_COUNT := by
  unfold preExamples
  rw [if_neg (by simp [h])]
  simp

theorem analyze_column_of_ne (l : List Value) (n : String) (h : l.length ≠ 0) :
    analyze_column l n =
      ⟨.counts (typeCounts l),
       (preExamples l n).drop (kOf l) ++ List.replicate (kOf l) Entry.tom,
       if is_categorical l then Note.kategorisk (uniqueVals l).length
       else Note.varierande⟩ := by
  unfold analyze_column
  rw [if_neg h]

theorem analyze_column_examples_eq (l : List Value) (n : String)
    (h : l.length ≠ 0) :
    (analyze_column l n).examples =
      (preExamples l n).drop (kOf l) ++ List.replicate (kOf l) Entry.tom := by
  rw [analyze_column_of_ne l n h]

theorem analyze_column_note_eq (l : List Value) (n : String)
    (h : l.length ≠ 0) :
    (analyze_column l n).note =
      if is_categorical l then Note.kategorisk (uniqueVals l).length
      else Note.varierande := by
  rw [analyze_column_of_ne l n h]

theorem digitChar_isDigit : ∀ m < 10, (Nat.digitChar m).isDigit = true := by
  decide

theorem natNumeralAux_digits :
    ∀ (fuel n : Nat), ∀ c ∈ natNumeralAux fuel n, c.isDigit = true := by
  intro fuel
  induction fuel with
  | zero => intro n c h; simp [natNumeralAux] at h
  | succ f ih =>
    intro n c h
    rw [natNumeralAux] at h
    split at h
    · next hlt =>
      simp only [List.mem_singleton] at h
      exact h ▸ digitChar_isDigit n hlt
    · rcases List.mem_append.mp h with h1 | h1
      · exact ih _ c h1
      · simp only [List.mem_singleton] at h1
        exact h1 ▸ digitChar_isDigit _ (Nat.mod_lt _ (by norm_num))

theorem natNumeral_digits (n : Nat) : ∀ c ∈ natNumeral n, c.isDigit = true :=
  natNumeralAux_digits (n + 1) n

theorem natNumeralAux_ne_nil :
    ∀ (fuel n : Nat), fuel ≠ 0 → natNumeralAux fuel n ≠ [] := by
  intro fuel n hf
  cases fuel with
  | zero => exact absurd rfl hf
  | succ f =>
    rw [natNumeralAux]
    split
    · simp
    · simp

theorem natNumeral_ne_nil (n : Nat) : natNumeral n ≠ [] :=
  natNumeralAux_ne_nil (n + 1) n (Nat.succ_ne_zero n)

theorem isDigit_not_ws {c : Char} (h : c.isDigit = true) :
    c.isWhitespace = false := by
  by_contra hw
  rw [Bool.not_eq_false] at hw
  simp only [Char.isWhitespace, Bool.or_eq_true, decide_eq_true_eq] at hw
  rcases hw with ((h1 | h1) | h1) | h1 <;> subst h1 <;>
    exact absurd h (by decide)

theorem intChars_drop_one_digits (z : Int) :
    ∀ c ∈ (intChars z).drop 1, c.isDigit = true := by
  intro c hc
  unfold intChars at hc
  split at hc
  · simpa using natNumeral_digits z.natAbs c (List.mem_of_mem_drop hc)
  · simp only [List.nil_append] at hc
    exact natNumeral_digits z.natAbs c (List.mem_of_mem_drop hc)

theorem pyBlank_num (z : Int) : pyBlank (Value.num z) = false := by
  unfold pyBlank pyStr
  rcases List.exists_mem_of_ne_nil _ (natNumeral_ne_nil z.natAbs) with ⟨c, hc⟩
  have hcd : c.isDigit = true := natNumeral_digits z.natAbs c hc
  have hmem : c ∈ (String.mk (intChars z)).toList := by
    show c ∈ intChars z
    exact List.mem_append.mpr (Or.inr hc)
  rw [Bool.eq_false_iff]
  intro hall
  have := (List.all_eq_true.mp hall) c hmem
  rw [isDigit_not_ws hcd] at this
  exact Bool.false_ne_true this

theorem valKind_num (z : Int) : valKind (Value.num z) = Kind.tal := by
  unfold valKind
  rw [show (Value.num z).isMissing = false from rfl, pyBlank_num]
  rfl

theorem pnrShaped_ne_pyStr_num {s : String} (hs : pnrShaped s = true) (z : Int) :
    s ≠ pyStr (Value.num z) := by
  intro he
  unfold pnrShaped at hs
  split at hs
  · next a b c d e f g h i j k hlist =>
    simp only [Bool.and_eq_true, beq_iff_eq] at hs
    have hg : g = '-' := hs.1.2
    have hdrop : (s.toList.drop 1) = [b, c, d, e, f, g, h, i, j, k] := by
      rw [hlist]
      rfl
    have hgmem : g ∈ s.toList.drop 1 := by
      rw [hdrop]; simp
    have hdigit : g.isDigit = true := by
      have : s.toList = intChars z := by rw [he]; rfl
      exact intChars_drop_one_digits z g (this ▸ hgmem)
    rw [hg] at hdigit
    exact absurd hdigit (by decide)
  · exact Bool.false_ne_true hs

theorem inferObjectsDtype_pstr (l : List String) :
    inferObjectsDtype (l.map PyObj.pstr) = Pdtype.tyObj := by
  unfold inferObjectsDtype
  cases l with
  | nil => rfl
  | cons a as => simp [PyObj.isPnum, PyObj.isPdt]

/-- Line 51's `astype(str)` makes the content-based numeric branch on
line 73 unreachable: `infer_objects` never parses strings, so the
uniform-random-number generator is never dispatched to. -/
theorem generate_fake_data_ne_uniform (series : List Value) (name : String) :
    generate_fake_data series name ≠ Fake.uniform := by
  unfold generate_fake_data
  simp only [inferObjectsDtype_pstr]
  split
  · simp
  · split
    · simp
    · split
      · simp
      · split
        · simp
        · split
          · simp
          · split
            · simp
            · split
              · simp
              · split
                · simp
                · split
                  · next hnum => simp [is_numeric_dtype] at hnum
                  · split <;> simp

/-- Which generator runs depends only on the column name whenever a
name token matches; for the name "Personnummer" it is always the
national-identity-number generator `fake.ssn()`
(src/analyze_excel.py:65-66). -/
theorem gfd_personnummer (series : List Value) :
    generate_fake_data series "Personnummer" = Fake.ssn := by
  have h1 : (hasSub (pyLower "Personnummer") "namn"
      || hasSub (pyLower "Personnummer") "kund") = false := by decide
  have h2 : hasSub (pyLower "Personnummer") "företag" = false := by decide
  have h3 : (hasSub (pyLower "Personnummer") "epost"
      || hasSub (pyLower "Personnummer") "email") = false := by decide
  have h4 : (hasSub (pyLower "Personnummer") "telefon"
      || hasSub (pyLower "Personnummer") "mobil") = false := by decide
  have h5 : hasSub (pyLower "Personnummer") "adress" = false := by decide
  have h6 : hasSub (pyLower "Personnummer") "personnummer" = true := by decide
  simp [generate_fake_data, h1, h2, h3, h4, h5, h6]

theorem seriesDtype_of_all_num {l : List Value}
    (h : ∀ v ∈ l, v.isMissing = false → v.isNum = true) :
    seriesDtype l = Pdtype.tyNum := by
  unfold seriesDtype
  have hall : (l.filter (fun v => !v.isMissing)).all Value.isNum = true := by
    rw [List.all_eq_true]
    intro v hv
    rw [List.mem_filter] at hv
    exact h v hv.1 (by simpa using hv.2)
  simp [hall]

theorem is_categorical_of_tyNum {l : List Value}
    (h : seriesDtype l = Pdtype.tyNum) : is_categorical l = false := by
  simp [is_categorical, h, is_string_dtype]

theorem typeCounts_snd_sum (l : List Value) :
    ((typeCounts l).map Prod.snd).sum = l.length := by
  unfold typeCounts countKind
  rw [List.map_map]
  rw [show (Prod.snd ∘ fun k => (k, (l.map valKind).count k))
      = fun k => (l.map valKind).count k from rfl]
  rw [sum_counts_dedupFirst]
  exact List.length_map l valKind

theorem typeCounts_frac_sum (l : List Value) (h : l ≠ []) :
    (((typeCounts l).map fun p => (p.2 : ℚ) / (l.length : ℚ)).sum) = 1 := by
  have hL : (l.length : ℚ) ≠ 0 :=
    Nat.cast_ne_zero.mpr (Nat.pos_iff_ne_zero.mp (List.length_pos.mpr h))
  have h1 : ((typeCounts l).map fun p => ((p.2 : ℚ))).sum = (l.length : ℚ) := by
    calc ((typeCounts l).map fun p => ((p.2 : ℚ))).sum
        = (((typeCounts l).map Prod.snd).map (fun n : ℕ => (n : ℚ))).sum := by
          rw [List.map_map]; rfl
      _ = (((typeCounts l).map Prod.snd).sum : ℚ) := (Nat.cast_list_sum _).symm
      _ = (l.length : ℚ) := by rw [typeCounts_snd_sum]
  calc (((typeCounts l).map fun p => (p.2 : ℚ) / (l.length : ℚ)).sum)
      = (((typeCounts l).map fun p => ((p.2 : ℚ)) * ((l.length : ℚ))⁻¹).sum) := by
        simp only [div_eq_mul_inv]
    _ = ((typeCounts l).map fun p => ((p.2 : ℚ))).sum * ((l.length : ℚ))⁻¹ :=
        List.sum_map_mul_right _ _ _
    _ = 1 := by rw [h1]; exact mul_inv_cancel₀ hL

theorem typeCounts_mem_iff (l : List Value) (k : Kind) :
    (∃ c, (k, c) ∈ typeCounts l) ↔ 0 < countKind l k := by
  unfold typeCounts
  constructor
  · rintro ⟨c, hc⟩
    rw [List.mem_map] at hc
    obtain ⟨k', hk', he⟩ := hc
    have hk : k' = k := congrArg Prod.fst he
    subst hk
    rw [countKind, List.count_pos_iff]
    exact (mem_dedupFirst _ _).mp hk'
  · intro hpos
    refine ⟨countKind l k, ?_⟩
    rw [List.mem_map]
    refine ⟨k, ?_, rfl⟩
    rw [mem_dedupFirst]
    rw [countKind, List.count_pos_iff] at hpos
    exact hpos

theorem typeCounts_fst_nodup (l : List Value) :
    ((typeCounts l).map Prod.fst).Nodup := by
  unfold typeCounts
  rw [List.map_map]
  rw [show (Prod.fst ∘ fun k => (k, countKind l k)) = id from rfl, List.map_id]
  exact nodup_dedupFirst _

theorem is_string_dtype_seriesDtype (l : List Value) :
    is_string_dtype (seriesDtype l) = true ↔
      (¬(l.filter (fun v => !v.isMissing)).all Value.isNum = true ∧
       ¬(l.filter (fun v => !v.isMissing)).all Value.isTemporal = true) := by
  unfold seriesDtype is_string_dtype
  by_cases h1 : (l.filter (fun v => !v.isMissing)).all Value.isNum = true
  · simp [h1]
  · by_cases h2 : (l.filter (fun v => !v.isMissing)).all Value.isTemporal = true
    · simp [h1, h2]
    · simp [h1, h2]

theorem is_categorical_iff (l : List Value) :
    is_categorical l = true ↔
      (0 < (uniqueVals l).length ∧
       (uniqueVals l).length ≤ CATEGORICAL_THRESHOLD ∧
       ¬(l.filter (fun v => !v.isMissing)).all Value.isNum = true ∧
       ¬(l.filter (fun v => !v.isMissing)).all Value.isTemporal = true) := by
  unfold is_categorical
  rw [Bool.and_eq_true, Bool.and_eq_true]
  rw [decide_eq_true_eq, decide_eq_true_eq, is_string_dtype_seriesDtype]
  tauto

theorem note_eq_kategorisk_iff (l : List Value) (name : String) :
    ((analyze_column l name).note = Note.kategorisk (uniqueVals l).length ↔
      is_categorical l = true) := by
  by_cases hl : l.length = 0
  · have hnil : l = [] := List.length_eq_zero.mp hl
    subst hnil
    rw [show (analyze_column [] name).note = Note.ingenData from rfl]
    decide
  · rw [analyze_column_of_ne l name hl]
    by_cases hc : is_categorical l = true
    · simp [hc]
    · simp [hc]

theorem note_kategorisk_imp (l : List Value) (name : String) (m : Nat) :
    (analyze_column l name).note = Note.kategorisk m →
      is_categorical l = true := by
  by_cases hl : l.length = 0
  · have hnil : l = [] := List.length_eq_zero.mp hl
    subst hnil
    intro h
    exact Note.noConfusion (show Note.ingenData = Note.kategorisk m from h)
  · rw [analyze_column_of_ne l name hl]
    by_cases hc : is_categorical l = true
    · intro _; exact hc
    · intro h
      simp only [hc, if_false, Bool.false_eq_true] at h
      exact Note.noConfusion (show Note.varierande = Note.kategorisk m from h)

-- --- Claim theorems ------------------------------------------------------

/-- C9: on the zero-row sample `analyze_column` returns the
"Tom kolumn" summary sentinel, the "Ingen data" note and an empty
example list — a total computation, with no synthesized entry in the
output. -/
theorem C9_empty_column_sentinel (name : String) :
    analyze_column [] name
        = ⟨TypeSummary.tomKolumn, [], Note.ingenData⟩ ∧
      (analyze_column [] name).examples = [] :=
  ⟨rfl, rfl⟩

/-- C8: over any non-empty sample the type-proportion fractions sum to
exactly 1, the per-kind counts sum to the row count (every row is
counted in exactly one kind), no kind is listed twice, and a kind
appears in the census iff it has a positive count. -/
theorem C8_type_census_partition (l : List Value) (h : l ≠ []) :
    (((typeCounts l).map fun p => (p.2 : ℚ) / (l.length : ℚ)).sum = 1) ∧
    (((typeCounts l).map Prod.snd).sum = l.length) ∧
    ((typeCounts l).map Prod.fst).Nodup ∧
    (∀ k : Kind, (∃ c, (k, c) ∈ typeCounts l) ↔ 0 < countKind l k) :=
  ⟨typeCounts_frac_sum l h, typeCounts_snd_sum l, typeCounts_fst_nodup l,
    fun k => typeCounts_mem_iff l k⟩

/-- C8 witness: the census invariants evaluated on a concrete
three-row sample holding a number, a missing cell and a word. -/
theorem C8_type_census_partition_witness :
    (((typeCounts [Value.num 7, Value.missing, Value.text "x"]).map
        fun p => (p.2 : ℚ)
          / (([Value.num 7, Value.missing, Value.text "x"] : List Value).length : ℚ)).sum
        = 1) ∧
    (((typeCounts [Value.num 7, Value.missing, Value.text "x"]).map Prod.snd).sum
        = ([Value.num 7, Value.missing, Value.text "x"] : List Value).length) ∧
    ((typeCounts [Value.num 7, Value.missing, Value.text "x"]).map Prod.fst).Nodup ∧
    (∀ k : Kind,
      (∃ c, (k, c) ∈ typeCounts [Value.num 7, Value.missing, Value.text "x"]) ↔
        0 < countKind [Value.num 7, Value.missing, Value.text "x"] k) :=
  C8_type_census_partition [Value.num 7, Value.missing, Value.text "x"]
    (by decide)

/-- C4 (amended): a column is classified Categorical iff the count of
distinct non-missing values is in (0, CATEGORICAL_THRESHOLD] and the
non-missing values are neither uniformly numeric nor uniformly
temporal — the pandas string-dtype test of the series, not per-value
textuality of each distinct value.  A column of only numbers or only
dates is therefore never Categorical, but a mixed column can be. -/
theorem C4_categorical_iff_dtype (l : List Value) (name : String) :
    ((analyze_column l name).note = Note.kategorisk (uniqueVals l).length ↔
      (0 < (uniqueVals l).length ∧
       (uniqueVals l).length ≤ CATEGORICAL_THRESHOLD ∧
       ¬(l.filter (fun v => !v.isMissing)).all Value.isNum = true ∧
       ¬(l.filter (fun v => !v.isMissing)).all Value.isTemporal = true)) ∧
    (∀ m : Nat,
      ((l.filter (fun v => !v.isMissing)).all Value.isNum = true ∨
       (l.filter (fun v => !v.isMissing)).all Value.isTemporal = true) →
      (analyze_column l name).note ≠ Note.kategorisk m) := by
  constructor
  · rw [note_eq_kategorisk_iff, is_categorical_iff]
  · intro m hdisj heq
    have hcat := note_kategorisk_imp l name m heq
    rw [is_categorical_iff] at hcat
    rcases hdisj with hd | hd
    · exact hcat.2.2.1 hd
    · exact hcat.2.2.2 hd

/-- C4 witness: a two-value purely numeric column is not classified
Categorical even though it has two distinct values. -/
theorem C4_categorical_iff_dtype_witness :
    (analyze_column [Value.num 3, Value.num 4] "q").note
      ≠ Note.kategorisk 2 :=
  (C4_categorical_iff_dtype [Value.num 3, Value.num 4] "q").2 2
    (Or.inl (by decide))

/-- C4 counterexample: the claimed iff fails in both directions.  A
mixed numeric-and-text sample is classified Categorical although one of
its distinct non-empty values is Numeric, not Textual; and a sample
with fifteen distinct non-Empty textual values plus one blank string is
classified Variable because the code counts the blank in the distinct
set, although the claim's conditions (distinct non-empty count 15 ≤ 15,
all textual) hold. -/
theorem C4_counterexample :
    ((analyze_column [Value.num 1, Value.text "a"] "x").note
        = Note.kategorisk 2 ∧
      Value.num 1 ∈ uniqueVals [Value.num 1, Value.text "a"] ∧
      valKind (Value.num 1) ≠ Kind.txt) ∧
    ((analyze_column c4SampleB "x").note = Note.varierande ∧
      (specDistinctNonEmpty c4SampleB).length = 15 ∧
      (∀ v ∈ specDistinctNonEmpty c4SampleB, valKind v = Kind.txt)) := by
  decide

/-- C6 (amended): the example list has length EXAMPLE_COUNT for a
Variable classification and length 0 for a zero-row sample, but for a
Categorical column the length is max(min(distinct-count, EXAMPLE_COUNT),
k) — strictly below EXAMPLE_COUNT when fewer than EXAMPLE_COUNT distinct
values exist and few slots are blanked. -/
theorem C6_examples_length (l : List Value) (name : String) :
    (analyze_column l name).examples.length =
      if l.length = 0 then 0
      else if is_categorical l = true then
        max (min (uniqueVals l).length EXAMPLE_COUNT) (kOf l)
      else EXAMPLE_COUNT := by
  by_cases hl : l.length = 0
  · have hnil := List.length_eq_zero.mp hl
    subst hnil
    simp [analyze_column]
  · rw [analyze_column_examples_eq l name hl, if_neg hl]
    have hk := kOf_le l
    by_cases hc : is_categorical l = true
    · rw [if_pos hc]
      have hpre : (preExamples l name).length
          = min (uniqueVals l).length EXAMPLE_COUNT := by
        unfold preExamples
        rw [if_pos hc]
        rw [List.length_map, List.length_take, Nat.min_comm]
      simp only [List.length_append, List.length_drop, List.length_replicate,
        hpre]
      omega
    · rw [if_neg hc]
      have hpre := preExamples_length_of_var l name (by simpa using hc)
      simp only [List.length_append, List.length_drop, List.length_replicate,
        hpre]
      omega

/-- C6 counterexample: a non-empty Categorical sample whose example
list has length 3 — neither EXAMPLE_COUNT nor 0. -/
theorem C6_counterexample :
    ([Value.text "Stockholm", Value.text "Malmö", Value.text "Stockholm",
        Value.text "Göteborg"] : List Value).length ≠ 0 ∧
    (analyze_column [Value.text "Stockholm", Value.text "Malmö",
        Value.text "Stockholm", Value.text "Göteborg"] "Stad").examples.length
      ≠ EXAMPLE_COUNT := by
  decide

/-- C7 (amended): for every Categorical column, the example list before
empty-slot substitution is the distinct non-MISSING values (blanks
included) in first-occurrence order truncated to EXAMPLE_COUNT; on the
Stockholm sample the classification is Categorical(3) and the final
example list is exactly the three distinct values in first-occurrence
order. -/
theorem C7_categorical_examples (l : List Value) (name : String)
    (h : is_categorical l = true) :
    preExamples l name
        = ((uniqueVals l).take EXAMPLE_COUNT).map Entry.real ∧
      (analyze_column stockholmSample "Stad").note = Note.kategorisk 3 ∧
      (analyze_column stockholmSample "Stad").examples
        = [Entry.real (Value.text "Stockholm"),
           Entry.real (Value.text "Malmö"),
           Entry.real (Value.text "Göteborg")] := by
  refine ⟨?_, by decide, by decide⟩
  unfold preExamples
  rw [if_pos h]

/-- C7 witness: the general categorical-selection equation evaluated on
the Stockholm sample. -/
theorem C7_categorical_examples_witness :
    preExamples stockholmSample "Stad"
      = ((uniqueVals stockholmSample).take EXAMPLE_COUNT).map Entry.real :=
  (C7_categorical_examples stockholmSample "Stad" (by decide)).1

/-- C7 counterexample: on a Categorical sample containing a blank
string the pre-substitution example list differs from the spec's
"distinct non-empty values truncated to EXAMPLE_COUNT": the code's list
starts with the blank value and omits "e". -/
theorem C7_counterexample :
    is_categorical c7SampleBlank = true ∧
    preExamples c7SampleBlank "x"
      ≠ ((specDistinctNonEmpty c7SampleBlank).take EXAMPLE_COUNT).map
          Entry.real := by
  decide

/-- C10: a present-but-blank value is counted Empty in the census (so
it contributes to the empty-marker fraction), yet it stays in the
distinct-value list used for the Categorical decision and example
selection; concretely, a whitespace-only string appears verbatim in a
Categorical example list. -/
theorem C10_blank_values_retained (l : List Value) (v : Value)
    (hv : v ∈ l) (hm : v.isMissing = false) (hb : pyBlank v = true) :
    valKind v = Kind.tom ∧
      0 < emptyCount l ∧
      v ∈ uniqueVals l ∧
      Entry.real (Value.text " ") ∈ (analyze_column c10Sample "x").examples ∧
      (analyze_column c10Sample "x").note = Note.kategorisk 6 := by
  have hkind : valKind v = Kind.tom := by
    unfold valKind
    rw [hm, hb]
    rfl
  refine ⟨hkind, ?_, ?_, by decide, by decide⟩
  · unfold emptyCount countKind
    rw [List.count_pos_iff]
    exact List.mem_map.mpr ⟨v, hv, hkind⟩
  · unfold uniqueVals
    rw [mem_dedupFirst]
    rw [List.mem_filter]
    exact ⟨hv, by rw [hm]; rfl⟩

/-- C3: on every non-empty sample the synthesizer computes k as the
floor of the observed Empty proportion times EXAMPLE_COUNT, removes the
first k examples and appends k markers at the end; every Variable
50-row sample with 10 Empty rows therefore gets exactly one marker, in
the last slot; and whenever k reaches EXAMPLE_COUNT the list is all
markers. -/
theorem C3_empty_slot_substitution :
    (∀ (l : List Value) (name : String), l.length ≠ 0 →
      (analyze_column l name).examples
          = (preExamples l name).drop (kOf l)
            ++ List.replicate (kOf l) Entry.tom ∧
        kOf l = Nat.floor ((emptyCount l : ℚ) / (l.length : ℚ)
            * (EXAMPLE_COUNT : ℚ))) ∧
    (∀ (l : List Value) (name : String), l.length = 50 → emptyCount l = 10 →
      (analyze_column l name).note = Note.varierande →
      ((analyze_column l name).examples.count Entry.tom = 1 ∧
        (analyze_column l name).examples.getLast? = some Entry.tom)) ∧
    (∀ (l : List Value) (name : String), l.length ≠ 0 →
      EXAMPLE_COUNT ≤ kOf l →
      (analyze_column l name).examples
        = List.replicate EXAMPLE_COUNT Entry.tom) := by
  refine ⟨?_, ?_, ?_⟩
  · intro l name h
    exact ⟨analyze_column_examples_eq l name h, kOf_eq_floor l⟩
  · intro l name hlen hemp hnote
    have hne : l.length ≠ 0 := by rw [hlen]; decide
    have hcat : is_categorical l = false := by
      by_cases hc : is_categorical l = true
      · rw [analyze_column_note_eq l name hne, if_pos hc] at hnote
        exact absurd hnote (by simp)
      · simpa using hc
    have hk : kOf l = 1 := by
      unfold kOf
      rw [hemp, hlen]
      decide
    have hpre : preExamples l name
        = List.replicate EXAMPLE_COUNT
            (Entry.fake (generate_fake_data
              (l.filter (fun v => !v.isMissing)) name)) := by
      unfold preExamples
      rw [if_neg (by simp [hcat])]
    rw [analyze_column_examples_eq l name hne, hk, hpre]
    constructor
    · rw [List.count_append]
      rw [show (List.replicate EXAMPLE_COUNT
          (Entry.fake (generate_fake_data
            (l.filter (fun v => !v.isMissing)) name))).drop 1
          = List.replicate 4 (Entry.fake (generate_fake_data
              (l.filter (fun v => !v.isMissing)) name)) from rfl]
      have h0 : (List.replicate 4 (Entry.fake (generate_fake_data
          (l.filter (fun v => !v.isMissing)) name))).count Entry.tom = 0 := by
        rw [List.count_eq_zero]
        simp [List.mem_replicate]
      rw [h0]
      decide
    · rw [show List.replicate 1 Entry.tom = [Entry.tom] from rfl]
      exact List.getLast?_concat _
  · intro l name h hk5
    have hk : kOf l = EXAMPLE_COUNT := Nat.le_antisymm (kOf_le l) hk5
    rw [analyze_column_examples_eq l name h, hk]
    rw [List.drop_eq_nil_of_le
      (by rw [show EXAMPLE_COUNT = 5 from rfl] at *;
          exact preExamples_length_le l name)]
    rfl

/-- C3 witness: the three parts applied to the 50-row sample with ten
missing cells (parts one and two) and to a fully-missing sample (part
three). -/
theorem C3_empty_slot_substitution_witness :
    ((analyze_column c3Sample "Belopp").examples
        = (preExamples c3Sample "Belopp").drop (kOf c3Sample)
          ++ List.replicate (kOf c3Sample) Entry.tom) ∧
    ((analyze_column c3Sample "Belopp").examples.count Entry.tom = 1 ∧
      (analyze_column c3Sample "Belopp").examples.getLast?
        = some Entry.tom) ∧
    (analyze_column [Value.missing, Value.missing] "Belopp").examples
      = List.replicate EXAMPLE_COUNT Entry.tom :=
  ⟨(C3_empty_slot_substitution.1 c3Sample "Belopp" (by decide)).1,
   C3_empty_slot_substitution.2.1 c3Sample "Belopp" (by decide) (by decide)
     (by decide),
   C3_empty_slot_substitution.2.2 [Value.missing, Value.missing] "Belopp"
     (by decide) (by decide)⟩

/-- C5 (amended): a non-empty sample whose every value is Empty always
yields an example list of exactly EXAMPLE_COUNT markers; the
classification is Variable when the empties are all missing cells, but
a sample of blank-but-present strings is classified Categorical
instead. -/
theorem C5_all_empty_sample (l : List Value) (name : String)
    (hne : l ≠ []) (hall : ∀ v ∈ l, valKind v = Kind.tom) :
    (analyze_column l name).examples
        = List.replicate EXAMPLE_COUNT Entry.tom ∧
      ((∀ v ∈ l, v.isMissing = true) →
        (analyze_column l name).note = Note.varierande) := by
  have hlen : l.length ≠ 0 := by
    intro h
    exact hne (List.length_eq_zero.mp h)
  constructor
  · have hemp : emptyCount l = l.length := by
      unfold emptyCount countKind
      rw [← List.length_map l valKind]
      rw [List.count_eq_length]
      intro k hk
      rw [List.mem_map] at hk
      obtain ⟨v, hv, he⟩ := hk
      rw [← he, hall v hv]
    have hk : kOf l = EXAMPLE_COUNT := by
      unfold kOf
      rw [hemp, Nat.mul_comm]
      exact Nat.mul_div_cancel _ (Nat.pos_of_ne_zero hlen)
    rw [analyze_column_examples_eq l name hlen, hk]
    rw [List.drop_eq_nil_of_le (preExamples_length_le l name)]
    rfl
  · intro hmiss
    have huniq : uniqueVals l = [] := by
      unfold uniqueVals
      rw [List.filter_eq_nil_iff.mpr ?_]
      · rfl
      · intro v hv
        rw [hmiss v hv]
        decide
    have hcat : is_categorical l = false := by
      unfold is_categorical
      rw [huniq]
      rfl
    rw [analyze_column_note_eq l name hlen, if_neg (by simp [hcat])]

/-- C5 witness: the all-missing two-row sample yields five markers and
the Variable classification. -/
theorem C5_all_empty_sample_witness :
    (analyze_column [Value.missing, Value.text "  "] "x").examples
        = List.replicate EXAMPLE_COUNT Entry.tom ∧
      (analyze_column [Value.missing, Value.missing, Value.missing] "y").note
        = Note.varierande := by
  refine ⟨?_, ?_⟩
  · exact (C5_all_empty_sample [Value.missing, Value.text "  "] "x"
      (by decide) (by decide)).1
  · exact (C5_all_empty_sample [Value.missing, Value.missing, Value.missing]
      "y" (by decide) (by decide)).2 (by decide)

/-- C5 counterexample: a single blank-string sample is 100% Empty yet
is classified Categorical(1), not Variable, because `dropna` keeps the
blank string in the distinct set. -/
theorem C5_counterexample :
    (∀ v ∈ ([Value.text ""] : List Value), valKind v = Kind.tom) ∧
    (analyze_column [Value.text ""] "x").note = Note.kategorisk 1 ∧
    (analyze_column [Value.text ""] "x").note ≠ Note.varierande := by
  decide

/-- C2 (code bug): line 51's `astype(str)` makes the content-based
numeric branch of `generate_fake_data` unreachable (the uniform
generator is never dispatched, for any series and name), so the Ålder
sample — numeric values inside [18, 65], no name-token match — gets
five generic-word examples instead of numbers drawn from
[min(sample), max(sample)]. -/
theorem C2_numeric_branch_unreachable :
    (∀ (series : List Value) (name : String),
      generate_fake_data series name ≠ Fake.uniform) ∧
    (analyze_column alderSample "Ålder").note = Note.varierande ∧
    (analyze_column alderSample "Ålder").examples
      = List.replicate EXAMPLE_COUNT (Entry.fake Fake.word) := by
  refine ⟨generate_fake_data_ne_uniform, by decide, by decide⟩

/-- C1 counterexample: a column named "Personnummer" holding ten
distinct numeric-looking STRINGS is classified Categorical(10), not
Variable, and its example list echoes real sampled values verbatim. -/
theorem C1_counterexample :
    (analyze_column c1SampleText "Personnummer").note
        = Note.kategorisk 10 ∧
      (analyze_column c1SampleText "Personnummer").note
        ≠ Note.varierande ∧
      Entry.real (Value.text "10")
        ∈ (analyze_column c1SampleText "Personnummer").examples := by
  decide

/-- C1 (amended): for a column named "Personnummer" whose sample is
non-empty and holds numeric VALUES (such a column reads with a numeric
dtype), the classification is Variable regardless of the distinct
count, every example slot is an output of the ssn generator, and —
whenever the engine's ssn stream is well-shaped — every rendered
example matches the personnummer shape and differs from the display
string of every sampled value. -/
theorem C1_personnummer_ssn (fk : FakerGen) (l : List Value)
    (hssn : ∀ i, pnrShaped (fk.ssn i) = true)
    (hne : l ≠ [])
    (hnum : ∀ v ∈ l, ∃ z : Int, v = Value.num z) :
    (analyze_column l "Personnummer").note = Note.varierande ∧
    (analyze_column l "Personnummer").examples
        = List.replicate EXAMPLE_COUNT (Entry.fake Fake.ssn) ∧
    (∀ s ∈ renderedExamples fk (analyze_column l "Personnummer").examples,
      pnrShaped s = true ∧ ∀ v ∈ l, s ≠ pyStr v) := by
  have hlen : l.length ≠ 0 := by
    intro h
    exact hne (List.length_eq_zero.mp h)
  have hdty : seriesDtype l = Pdtype.tyNum := by
    apply seriesDtype_of_all_num
    intro v hv _
    obtain ⟨z, rfl⟩ := hnum v hv
    rfl
  have hcat : is_categorical l = false := is_categorical_of_tyNum hdty
  have hemp : emptyCount l = 0 := by
    unfold emptyCount countKind
    rw [List.count_eq_zero]
    intro hmem
    rw [List.mem_map] at hmem
    obtain ⟨v, hv, he⟩ := hmem
    obtain ⟨z, rfl⟩ := hnum v hv
    rw [valKind_num] at he
    exact Kind.noConfusion he
  have hk : kOf l = 0 := by
    unfold kOf
    rw [hemp]
    simp
  have hpre : preExamples l "Personnummer"
      = List.replicate EXAMPLE_COUNT (Entry.fake Fake.ssn) := by
    unfold preExamples
    rw [if_neg (by simp [hcat]), gfd_personnummer]
  have hex : (analyze_column l "Personnummer").examples
      = List.replicate EXAMPLE_COUNT (Entry.fake Fake.ssn) := by
    rw [analyze_column_examples_eq l "Personnummer" hlen, hk, hpre]
    rfl
  refine ⟨?_, hex, ?_⟩
  · rw [analyze_column_note_eq l "Personnummer" hlen,
      if_neg (by simp [hcat])]
  · intro s hs
    rw [hex] at hs
    have hrend : renderedExamples fk
        (List.replicate EXAMPLE_COUNT (Entry.fake Fake.ssn))
        = [fk.ssn 0, fk.ssn 1, fk.ssn 2, fk.ssn 3, fk.ssn 4] := rfl
    rw [hrend] at hs
    have hgoal : ∀ i : Nat, s = fk.ssn i →
        pnrShaped s = true ∧ ∀ v ∈ l, s ≠ pyStr v := by
      rintro i rfl
      refine ⟨hssn i, fun v hv => ?_⟩
      obtain ⟨z, rfl⟩ := hnum v hv
      exact pnrShaped_ne_pyStr_num (hssn i) z
    simp only [List.mem_cons, List.not_mem_nil, or_false] at hs
    rcases hs with h | h | h | h | h
    · exact hgoal 0 h
    · exact hgoal 1 h
    · exact hgoal 2 h
    · exact hgoal 3 h
    · exact hgoal 4 h

/-- C1 witness: the amended theorem applied to the demo engine and a
two-value numeric Personnummer column. -/
theorem C1_personnummer_ssn_witness :
    (analyze_column [Value.num 8501011234, Value.num 9001019876]
        "Personnummer").note = Note.varierande ∧
    (analyze_column [Value.num 8501011234, Value.num 9001019876]
        "Personnummer").examples
        = List.replicate EXAMPLE_COUNT (Entry.fake Fake.ssn) ∧
    (∀ s ∈ renderedExamples demoFaker
        (analyze_column [Value.num 8501011234, Value.num 9001019876]
          "Personnummer").examples,
      pnrShaped s = true ∧
        ∀ v ∈ ([Value.num 8501011234, Value.num 9001019876] : List Value),
          s ≠ pyStr v) :=
  C1_personnummer_ssn demoFaker [Value.num 8501011234, Value.num 9001019876]
    (fun _ => (by decide : pnrShaped "850101-1234" = true)) (by decide)
    (by
      intro v hv
      simp only [List.mem_cons, List.not_mem_nil, or_false] at hv
      rcases hv with rfl | rfl
      · exact ⟨8501011234, rfl⟩
      · exact ⟨9001019876, rfl⟩)

/-- C10 witness: the blank-value facts applied to the whitespace-only
string inside `c10Sample`. -/
theorem C10_blank_values_retained_witness :
    valKind (Value.text " ") = Kind.tom ∧
      0 < emptyCount c10Sample ∧
      Value.text " " ∈ uniqueVals c10Sample ∧
      Entry.real (Value.text " ") ∈ (analyze_column c10Sample "x").examples ∧
      (analyze_column c10Sample "x").note = Note.kategorisk 6 :=
  C10_blank_values_retained c10Sample (Value.text " ") (by decide) (by decide)
    (by decide)
